import Mathlib

/-!
Shallow embedding of `src/barrier.c` (pthreads-win32 barrier implementation).

The translation unit implements `pthread_barrier_init`, `pthread_barrier_destroy`,
`pthread_barrier_wait`, the lazy-init helper `ptw32_barrier_check_need_init`, and the
four `pthread_barrierattr_*` operations.

Headers (`pthread.h`, `implement.h`) are not part of the repository, so the constants
and the barrier struct they declare are modelled from the spec:
  * `PTW32_OBJECT_AUTO_INIT` / `PTHREAD_OBJECT_AUTO_INIT` (lines 66, 150, 181, 218)
    are the single `AutoInit` sentinel described in spec §3.
  * `PTW32_OBJECT_INVALID` (lines 145, 213) is the null / `Destroyed` sentinel.
  * The barrier struct (spec §3 "Barrier Object") holds the two heights
    `nCurrentBarrierHeight` / `nInitialBarrierHeight` (line 113), the exclusive mutex
    `mtxExclusiveAccess` and the semaphore `semBarrierBreeched`; line 236 reads the
    initial height through the spelling `InitialBarrierHeight`, modelled as the same
    initial-height field.
  * Numeric values of errno codes and of the pthread constants are representative
    (only their distinctness matters to the code).
Collaborator outcomes (calloc success, mutex/semaphore construction results, the
blocking `sem_wait` result, `errno`) are environment parameters, matching spec §6's
collaborator contracts.  Machine integers (`int` results, counts) are modelled as
`Int`; no arithmetic in this file approaches overflow width.
-/

/-- errno EINVAL. -/
def EINVAL : Int := 22
/-- errno ENOMEM. -/
def ENOMEM : Int := 12
/-- errno EBUSY. -/
def EBUSY : Int := 16
/-- errno ENOSYS. -/
def ENOSYS : Int := 40
/-- Distinguished second success result of a barrier wait (spec: SerialThread). -/
def PTHREAD_BARRIER_SERIAL_THREAD : Int := -1
/-- Process-private sharing mode. -/
def PTHREAD_PROCESS_PRIVATE : Int := 0
/-- Cross-process sharing mode. -/
def PTHREAD_PROCESS_SHARED : Int := 1
/-- Deferred cancellation type. -/
def PTHREAD_CANCEL_DEFERRED : Int := 0
/-- Asynchronous cancellation type. -/
def PTHREAD_CANCEL_ASYNCHRONOUS : Int := 1
/-- Cancellation delivery enabled. -/
def PTHREAD_CANCEL_ENABLE : Int := 0
/-- Cancellation delivery disabled. -/
def PTHREAD_CANCEL_DISABLED : Int := 1

/-- The barrier object allocated by `pthread_barrier_init` (struct from `implement.h`,
modelled from the spec §3 data model).  `mtxLocked` is the state of
`mtxExclusiveAccess`; `semCount` is the counting semaphore `semBarrierBreeched`'s
count (an abstract `Int`: cross-thread blocking is delegated to the collaborator). -/
structure BarrierObj where
  nCurrentBarrierHeight : Int
  nInitialBarrierHeight : Int
  mtxLocked : Bool
  semCount : Int
  semShared : Int
deriving Repr, DecidableEq

/-- Value stored in a `pthread_barrier_t` handle cell: the `AutoInit` sentinel, the
null / `Destroyed` sentinel (`PTW32_OBJECT_INVALID`), or a reference to a live
barrier object. -/
inductive HandleVal where
  | autoInitH : HandleVal
  | nullH : HandleVal
  | liveH (b : BarrierObj) : HandleVal
deriving Repr, DecidableEq

/-- A barrier attributes object (`pthread_barrierattr_t_`): one `pshared` flag. -/
structure BarrierAttr where
  pshared : Int
deriving Repr, DecidableEq

/-- Outcome of `pthread_barrierattr_init`: either a returned code together with the
value stored into `*attr`, or an undefined-behaviour crash (write through a null
object pointer). -/
inductive AttrInitOut where
  | nullDeref : AttrInitOut
  | ret (result : Int) (slot : Option BarrierAttr) : AttrInitOut
deriving Repr, DecidableEq

/-- `pthread_barrierattr_init` (lines 283-326).  `callocOk` is the allocator's
outcome.  Note the source sets `result = ENOMEM` when `calloc` fails but then still
executes `ba->pshared = PTHREAD_PROCESS_PRIVATE` (line 320) with `ba == NULL`:
the failure path never returns cleanly, it dereferences the null pointer. -/
def pthread_barrierattr_init (callocOk : Bool) : AttrInitOut :=
  if callocOk then
    AttrInitOut.ret 0 (some { pshared := PTHREAD_PROCESS_PRIVATE })
  else
    AttrInitOut.nullDeref

/-- `pthread_barrierattr_destroy` (lines 329-374).  Argument is the value of `*attr`
(`none` when the attr pointer itself is null is folded into the outer `Option`).
Returns the result and the final `*attr`. -/
def pthread_barrierattr_destroy (attr : Option (Option BarrierAttr)) :
    Int × Option (Option BarrierAttr) :=
  match attr with
  | some (some _) => (0, some none)
  | _ => (EINVAL, attr)

/-- `pthread_barrierattr_setpshared` (lines 437-516).  `supported` models the
compile-time `_POSIX_THREAD_PROCESS_SHARED` flag (line 490).  Returns the result
code and the final attributes cell. -/
def pthread_barrierattr_setpshared (supported : Bool)
    (attr : Option (Option BarrierAttr)) (pshared : Int) :
    Int × Option (Option BarrierAttr) :=
  match attr with
  | some (some a) =>
      if pshared = PTHREAD_PROCESS_SHARED ∨ pshared = PTHREAD_PROCESS_PRIVATE then
        let rp : Int × Int :=
          if pshared = PTHREAD_PROCESS_SHARED then
            if supported then (0, pshared) else (ENOSYS, PTHREAD_PROCESS_PRIVATE)
          else
            (0, pshared)
        (rp.1, some (some { a with pshared := rp.2 }))
      else
        (EINVAL, some (some a))
  | _ => (EINVAL, attr)

/-- `pthread_barrierattr_getpshared` (lines 377-434).  Returns the result code and
the value stored into `*pshared` (the out-parameter is assumed non-null here; the
source also writes the default through a null `pshared`, out of scope for the
claims). -/
def pthread_barrierattr_getpshared (attr : Option (Option BarrierAttr)) :
    Int × Int :=
  match attr with
  | some (some a) => (0, a.pshared)
  | _ => (EINVAL, PTHREAD_PROCESS_PRIVATE)

/-- Collaborator outcomes consumed by `pthread_barrier_init`: whether `calloc`
succeeds, and the results of `pthread_mutex_init` and `sem_init` (0 = success). -/
structure InitEnv where
  callocOk : Bool
  mutexInitRes : Int
  semInitRes : Int
deriving Repr, DecidableEq

/-- Outcome of `pthread_barrier_init`: the returned code, the final value of the
caller's handle cell `*barrier` (`none` when the `barrier` pointer itself was null),
and the barrier object left allocated on the heap when the call returns (`none`
when it was freed on a failure path, or never allocated). -/
structure InitOut where
  result : Int
  slot : Option HandleVal
  allocated : Option BarrierObj
deriving Repr, DecidableEq

/-- `pthread_barrier_init` (lines 86-137).  `barrier` is the handle pointer
(`none` = NULL pointer), carrying the current value of `*barrier`; `attr` is the
attributes pointer (`none` = NULL, `some none` = points to a null attributes
handle).  Faithful points: the only argument check is `barrier == NULL` (line 95) —
`count` is not validated; on full success the function reaches `DONE` and returns 0
without ever assigning `*barrier` (lines 127, 135-136), so `slot` is returned
unchanged and the new object stays in `allocated` unreferenced by the caller. -/
def pthread_barrier_init (env : InitEnv) (barrier : Option HandleVal)
    (attr : Option (Option BarrierAttr)) (count : Int) : InitOut :=
  match barrier with
  | none => { result := EINVAL, slot := none, allocated := none }
  | some hv =>
      if env.callocOk then
        let pshared : Int :=
          match attr with
          | some (some a) => a.pshared
          | _ => PTHREAD_PROCESS_PRIVATE
        let b : BarrierObj :=
          { nCurrentBarrierHeight := count
            nInitialBarrierHeight := count
            mtxLocked := false
            semCount := 0
            semShared := pshared }
        if env.mutexInitRes ≠ 0 then
          { result := env.mutexInitRes, slot := some hv, allocated := none }
        else if env.semInitRes ≠ 0 then
          { result := env.semInitRes, slot := some hv, allocated := none }
        else
          { result := 0, slot := some hv, allocated := some b }
      else
        { result := ENOMEM, slot := some hv, allocated := none }

/-- `ptw32_barrier_check_need_init` (lines 30-83), runs under the process-wide
guard lock `ptw32_barrier_test_init_lock`.  `hv` is `*barrier` as re-read inside
the critical section.  Faithful point: the call at line 68 is
`pthread_barrier_init(barrier, NULL)` — the `count` argument of the three-parameter
`pthread_barrier_init` is omitted, so the count the initializer receives is an
indeterminate value, modelled by the parameter `g`.  Returns the result, the final
`*barrier` and the object the nested init left allocated. -/
def ptw32_barrier_check_need_init (env : InitEnv) (g : Int) (hv : HandleVal) :
    Int × HandleVal × Option BarrierObj :=
  if hv = HandleVal.autoInitH then
    let o := pthread_barrier_init env (some hv) none g
    (o.result, (match o.slot with | some h => h | none => hv), o.allocated)
  else if hv = HandleVal.nullH then
    (EINVAL, hv, none)
  else
    (0, hv, none)

/-- Observable events of one `pthread_barrier_wait` call, in execution order. -/
inductive Ev where
  | lockAcq : Ev
  | decrement (newHeight : Int) : Ev
  | reset : Ev
  | unlock : Ev
  | post (n : Int) : Ev
  | cancelSet (st : Int) : Ev
  | cancelRestore (st : Int) : Ev
  | semWaitBegin (cancelState : Int) : Ev
  | semWaitEnd : Ev
deriving Repr, DecidableEq

/-- Collaborator outcomes and thread context consumed by one `pthread_barrier_wait`
call: result of `pthread_mutex_lock` (0 = acquired, possibly after blocking),
result of the blocking `sem_wait` and the `errno` it leaves on failure, the calling
thread's cancellation type and current cancellation state, and the parameters the
auto-init path needs (`initEnv`, plus `g`, the indeterminate count of line 68). -/
structure WaitEnv where
  lockRes : Int
  semWaitRes : Int
  errnoVal : Int
  cancelType : Int
  cancelState : Int
  initEnv : InitEnv
  g : Int
deriving Repr, DecidableEq

/-- Outcome of a returning `pthread_barrier_wait` call: result code, final value of
`*barrier`, the event trace, the cancellation state in effect while blocked in
`sem_wait` (`none` when `sem_wait` was not reached), the thread's cancellation
state after the call, and whether the exclusive mutex is still held at return. -/
structure WaitOut where
  result : Int
  slot : Option HandleVal
  events : List Ev
  semWaitCancelState : Option Int
  finalCancelState : Int
  mutexHeldAtExit : Bool
deriving Repr, DecidableEq

/-- A `pthread_barrier_wait` call either returns, or dereferences a handle cell that
does not hold a live object reference (undefined behaviour at line 228). -/
inductive WaitRet where
  | crash : WaitRet
  | out (o : WaitOut) : WaitRet
deriving Repr, DecidableEq

/-- Lines 226-279 of `pthread_barrier_wait`: the body that runs once `b = *barrier`
is a live object.  `pthread_mutex_lock` blocks until the mutex is free and returns
`e.lockRes` (the code branches only on that returned int, line 229); every path out
of the body releases the mutex, so the result object has `mtxLocked = false`.
Faithful points: the last arrival resets the height (line 233), unlocks (line 234)
and then bulk-posts by the *initial* height (lines 235-236, where
`InitialBarrierHeight` is the initial-height field); a non-last arrival disables
cancellation delivery around `sem_wait` only when its cancellation type is
`PTHREAD_CANCEL_DEFERRED` (lines 255-259, 270-273 — the source's own comment notes
it "Could still be PTHREAD_CANCEL_ASYNCHRONOUS"), registers the unlock as a scoped
cleanup (line 262) and runs it via `pthread_cleanup_pop(1)` (line 275), and
replaces its result by `errno` when `sem_wait` fails (lines 265-268). -/
def waitLive (e : WaitEnv) (b : BarrierObj) : WaitOut :=
  if e.lockRes = 0 then
    if b.nCurrentBarrierHeight - 1 = 0 then
      { result := PTHREAD_BARRIER_SERIAL_THREAD
        slot := some (HandleVal.liveH
          { b with
              nCurrentBarrierHeight := b.nInitialBarrierHeight
              semCount := b.semCount + b.nInitialBarrierHeight
              mtxLocked := false })
        events := [Ev.lockAcq, Ev.decrement 0, Ev.reset, Ev.unlock,
                   Ev.post b.nInitialBarrierHeight]
        semWaitCancelState := none
        finalCancelState := e.cancelState
        mutexHeldAtExit := false }
    else
      let deferredType : Bool := e.cancelType = PTHREAD_CANCEL_DEFERRED
      let during : Int := if deferredType then PTHREAD_CANCEL_DISABLED else e.cancelState
      { result := if e.semWaitRes = 0 then 0 else e.errnoVal
        slot := some (HandleVal.liveH
          { b with
              nCurrentBarrierHeight := b.nCurrentBarrierHeight - 1
              semCount := b.semCount - 1
              mtxLocked := false })
        events := [Ev.lockAcq, Ev.decrement (b.nCurrentBarrierHeight - 1)]
                  ++ (if deferredType then [Ev.cancelSet PTHREAD_CANCEL_DISABLED] else [])
                  ++ [Ev.semWaitBegin during, Ev.semWaitEnd]
                  ++ (if deferredType then [Ev.cancelRestore e.cancelState] else [])
                  ++ [Ev.unlock]
        semWaitCancelState := some during
        finalCancelState := e.cancelState
        mutexHeldAtExit := false }
  else
    { result := e.lockRes
      slot := some (HandleVal.liveH b)
      events := []
      semWaitCancelState := none
      finalCancelState := e.cancelState
      mutexHeldAtExit := false }

/-- `pthread_barrier_wait` (lines 207-280).  `barrier` is the handle pointer
(`none` = NULL), carrying the current `*barrier`.  Checks lines 213-216 first; an
`AutoInit` handle runs `ptw32_barrier_check_need_init` (lines 218-224) and, when
that reports success, proceeds to `b = *barrier` (line 226) — because
`pthread_barrier_init` never stores the handle, the cell still holds the sentinel
there and the dereference is undefined behaviour (`WaitRet.crash`). -/
def pthread_barrier_wait (e : WaitEnv) (barrier : Option HandleVal) : WaitRet :=
  match barrier with
  | none =>
      WaitRet.out
        { result := EINVAL, slot := none, events := [], semWaitCancelState := none,
          finalCancelState := e.cancelState, mutexHeldAtExit := false }
  | some hv =>
      match hv with
      | HandleVal.nullH =>
          WaitRet.out
            { result := EINVAL, slot := some hv, events := [],
              semWaitCancelState := none, finalCancelState := e.cancelState,
              mutexHeldAtExit := false }
      | HandleVal.autoInitH =>
          let r := ptw32_barrier_check_need_init e.initEnv e.g HandleVal.autoInitH
          if r.1 ≠ 0 then
            WaitRet.out
              { result := r.1, slot := some r.2.1, events := [],
                semWaitCancelState := none, finalCancelState := e.cancelState,
                mutexHeldAtExit := false }
          else
            match r.2.1 with
            | HandleVal.liveH b => WaitRet.out (waitLive e b)
            | _ => WaitRet.crash
      | HandleVal.liveH b => WaitRet.out (waitLive e b)

/-- Outcome of `pthread_barrier_destroy`: result code, final `*barrier`, and which
of the object's sub-resources were torn down. -/
structure DestroyOut where
  result : Int
  slot : Option HandleVal
  semDestroyed : Bool
  mutexDestroyed : Bool
  freed : Bool
deriving Repr, DecidableEq

/-- `pthread_barrier_destroy` (lines 139-204).  A live reference is destroyed only
when `pthread_mutex_trylock` acquires the exclusive mutex (line 154): the handle is
nulled first (line 163), then the semaphore is destroyed, the mutex unlocked,
destroyed, and the object freed (lines 165-168).  When the trylock fails (mutex
held by another thread) nothing at all happens and the initial `result = 0` is
returned (lines 142, 203).  An `AutoInit` handle is re-checked under the guard
lock; still-`AutoInit` means nothing was ever built: null the handle, result 0
(lines 181-190) — in this sequential model the re-read under the lock yields the
same value, so the `EBUSY` arm (line 197) is not reachable here. -/
def pthread_barrier_destroy (barrier : Option HandleVal) : DestroyOut :=
  match barrier with
  | none =>
      { result := EINVAL, slot := none, semDestroyed := false,
        mutexDestroyed := false, freed := false }
  | some hv =>
      match hv with
      | HandleVal.nullH =>
          { result := EINVAL, slot := some hv, semDestroyed := false,
            mutexDestroyed := false, freed := false }
      | HandleVal.liveH b =>
          if b.mtxLocked = false then
            { result := 0, slot := some HandleVal.nullH, semDestroyed := true,
              mutexDestroyed := true, freed := true }
          else
            { result := 0, slot := some (HandleVal.liveH b), semDestroyed := false,
              mutexDestroyed := false, freed := false }
      | HandleVal.autoInitH =>
          { result := 0, slot := some HandleVal.nullH, semDestroyed := false,
            mutexDestroyed := false, freed := false }

/-- One operation applied to a barrier handle cell: a complete `pthread_barrier_wait`
call (with its collaborator outcomes) or a `pthread_barrier_destroy` call. -/
inductive BOp where
  | wait (e : WaitEnv) : BOp
  | destroy : BOp
deriving Repr, DecidableEq

/-- Effect of one operation on the handle cell.  A crashing wait (undefined
behaviour) is modelled as leaving the cell unchanged; it cannot arise from a live
or null cell. -/
def stepOp (op : BOp) (s : Option HandleVal) : Option HandleVal :=
  match op with
  | BOp.wait e =>
      match pthread_barrier_wait e s with
      | WaitRet.out o => o.slot
      | WaitRet.crash => s
  | BOp.destroy => (pthread_barrier_destroy s).slot

/-- Run a sequence of barrier operations against a handle cell. -/
def runOps : List BOp → Option HandleVal → Option HandleVal
  | [], s => s
  | op :: rest, s => runOps rest (stepOp op s)

/-- Height invariant of a live barrier object at any point where the exclusive
mutex is free: the current height is strictly positive (it is 0 only momentarily
inside the locked region) and bounded by the initial height. -/
def heightInv (b : BarrierObj) : Prop :=
  1 ≤ b.nCurrentBarrierHeight ∧
  b.nCurrentBarrierHeight ≤ b.nInitialBarrierHeight ∧
  1 ≤ b.nInitialBarrierHeight

/-- The height invariant, lifted to a handle cell. -/
def cellInv (s : Option HandleVal) : Prop :=
  ∀ b : BarrierObj, s = some (HandleVal.liveH b) → heightInv b

theorem waitLive_heightInv (e : WaitEnv) (b b' : BarrierObj) (h : heightInv b)
    (hs : (waitLive e b).slot = some (HandleVal.liveH b')) : heightInv b' := by
  obtain ⟨h1, h2, h3⟩ := h
  unfold waitLive at hs
  by_cases hL : e.lockRes = 0
  · by_cases hc : b.nCurrentBarrierHeight - 1 = 0
    · simp only [hL, hc, if_pos, if_true] at hs
      simp only [Option.some.injEq, HandleVal.liveH.injEq] at hs
      subst hs
      exact ⟨h3, le_refl _, h3⟩
    · simp only [hL, hc, if_pos, if_true, if_neg, if_false] at hs
      simp only [Option.some.injEq, HandleVal.liveH.injEq] at hs
      subst hs
      refine ⟨?_, ?_, h3⟩ <;> dsimp only <;> omega
  · simp only [hL, if_neg, if_false] at hs
    simp only [Option.some.injEq, HandleVal.liveH.injEq] at hs
    subst hs
    exact ⟨h1, h2, h3⟩

theorem stepOp_cellInv (op : BOp) (s : Option HandleVal) (h : cellInv s) :
    cellInv (stepOp op s) := by
  intro b' hb'
  match op with
  | BOp.wait e =>
      match s with
      | none => simp [stepOp, pthread_barrier_wait] at hb'
      | some HandleVal.nullH => simp [stepOp, pthread_barrier_wait] at hb'
      | some HandleVal.autoInitH =>
          simp only [stepOp, pthread_barrier_wait] at hb'
          simp only [ptw32_barrier_check_need_init, pthread_barrier_init] at hb'
          by_cases hcalloc : e.initEnv.callocOk <;>
            by_cases hm : e.initEnv.mutexInitRes = 0 <;>
              by_cases hsem : e.initEnv.semInitRes = 0 <;>
                simp [hcalloc, hm, hsem, EINVAL, ENOMEM] at hb'
      | some (HandleVal.liveH b) =>
          simp only [stepOp, pthread_barrier_wait] at hb'
          exact waitLive_heightInv e b b' (h b rfl) hb'
  | BOp.destroy =>
      match s with
      | none => simp [stepOp, pthread_barrier_destroy] at hb'
      | some HandleVal.nullH => simp [stepOp, pthread_barrier_destroy] at hb'
      | some HandleVal.autoInitH => simp [stepOp, pthread_barrier_destroy] at hb'
      | some (HandleVal.liveH b) =>
          simp only [stepOp, pthread_barrier_destroy] at hb'
          by_cases hm : b.mtxLocked = false
          · simp [hm] at hb'
          · simp [hm] at hb'
            subst hb'
            exact h b rfl

theorem runOps_cellInv (ops : List BOp) (s : Option HandleVal) (h : cellInv s) :
    cellInv (runOps ops s) := by
  induction ops generalizing s with
  | nil => exact h
  | cons op rest ih => exact ih (stepOp op s) (stepOp_cellInv op s h)

/-- C1: a wait call on a live barrier whose decrement drives the current height to
0 (the last arrival) resets the current height to the initial height, releases the
exclusive lock, bulk-releases the semaphore by exactly the initial height, and
returns the SerialThread result. -/
theorem c1_last_arrival (e : WaitEnv) (b : BarrierObj)
    (hlock : e.lockRes = 0) (hlast : b.nCurrentBarrierHeight = 1) :
    pthread_barrier_wait e (some (HandleVal.liveH b)) = WaitRet.out
      { result := PTHREAD_BARRIER_SERIAL_THREAD
        slot := some (HandleVal.liveH
          { b with
              nCurrentBarrierHeight := b.nInitialBarrierHeight
              semCount := b.semCount + b.nInitialBarrierHeight
              mtxLocked := false })
        events := [Ev.lockAcq, Ev.decrement 0, Ev.reset, Ev.unlock,
                   Ev.post b.nInitialBarrierHeight]
        semWaitCancelState := none
        finalCancelState := e.cancelState
        mutexHeldAtExit := false } := by
  simp [pthread_barrier_wait, waitLive, hlock, hlast]

/-- C1 witness: a barrier of initial height 3 with current height 1. -/
theorem c1_last_arrival_witness :
    pthread_barrier_wait ⟨0, 0, 0, 0, 0, ⟨true, 0, 0⟩, 0⟩
        (some (HandleVal.liveH ⟨1, 3, false, 0, 0⟩)) = WaitRet.out
      { result := PTHREAD_BARRIER_SERIAL_THREAD
        slot := some (HandleVal.liveH ⟨3, 3, false, 3, 0⟩)
        events := [Ev.lockAcq, Ev.decrement 0, Ev.reset, Ev.unlock, Ev.post 3]
        semWaitCancelState := none
        finalCancelState := 0
        mutexHeldAtExit := false } :=
  (c1_last_arrival ⟨0, 0, 0, 0, 0, ⟨true, 0, 0⟩, 0⟩ ⟨1, 3, false, 0, 0⟩ rfl rfl).trans
    (by decide)

/-- C2 (code bug): a fully successful `pthread_barrier_init` returns 0 yet leaves
the caller's handle cell unchanged — the live handle is never written into
`handle_slot` (the source lacks a `*barrier = b` assignment), so the constructed
object stays unreachable to the caller. -/
theorem c2_init_never_stores_handle :
    (pthread_barrier_init ⟨true, 0, 0⟩ (some HandleVal.autoInitH) none 2).result = 0 ∧
    (pthread_barrier_init ⟨true, 0, 0⟩ (some HandleVal.autoInitH) none 2).slot =
      some HandleVal.autoInitH ∧
    (pthread_barrier_init ⟨true, 0, 0⟩ (some HandleVal.autoInitH) none 2).allocated =
      some ⟨2, 2, false, 0, PTHREAD_PROCESS_PRIVATE⟩ := by decide

/-- C3: starting from the object a successful init with count N > 0 constructs,
after every sequence of wait/destroy operations the surviving live object satisfies
0 ≤ currentHeight ≤ initialHeight; moreover whenever a wait's decrement reaches 0
inside the exclusive lock, the trace of that wait resets the height to the initial
height before the unlock event. -/
theorem c3_height_invariant (N : Int) (ops : List BOp) (b0 b : BarrierObj)
    (hN : 0 < N)
    (hinit : (pthread_barrier_init ⟨true, 0, 0⟩ (some HandleVal.nullH) none N).allocated =
      some b0)
    (hrun : runOps ops (some (HandleVal.liveH b0)) = some (HandleVal.liveH b)) :
    (0 ≤ b.nCurrentBarrierHeight ∧ b.nCurrentBarrierHeight ≤ b.nInitialBarrierHeight) ∧
    (∀ (e : WaitEnv) (c : BarrierObj), e.lockRes = 0 → c.nCurrentBarrierHeight - 1 = 0 →
      (waitLive e c).events =
        [Ev.lockAcq, Ev.decrement 0, Ev.reset, Ev.unlock,
         Ev.post c.nInitialBarrierHeight]) := by
  constructor
  · have hb0 : heightInv b0 := by
      simp only [pthread_barrier_init] at hinit
      norm_num at hinit
      rw [← hinit]
      refine ⟨?_, le_refl _, ?_⟩ <;> dsimp only <;> omega
    have hinv : cellInv (some (HandleVal.liveH b0)) := by
      intro c hc
      simp only [Option.some.injEq, HandleVal.liveH.injEq] at hc
      rw [← hc]
      exact hb0
    have hfin := runOps_cellInv ops (some (HandleVal.liveH b0)) hinv b hrun
    obtain ⟨h1, h2, _⟩ := hfin
    exact ⟨by omega, h2⟩
  · intro e c hL hc
    simp [waitLive, hL, hc]

/-- C3 witness: N = 2, two wait operations (one ordinary arrival, one last
arrival). -/
theorem c3_height_invariant_witness :
    0 ≤ (⟨2, 2, false, 1, 0⟩ : BarrierObj).nCurrentBarrierHeight ∧
    (⟨2, 2, false, 1, 0⟩ : BarrierObj).nCurrentBarrierHeight ≤
      (⟨2, 2, false, 1, 0⟩ : BarrierObj).nInitialBarrierHeight :=
  (c3_height_invariant 2
    [BOp.wait ⟨0, 0, 0, 0, 0, ⟨true, 0, 0⟩, 0⟩, BOp.wait ⟨0, 0, 0, 0, 0, ⟨true, 0, 0⟩, 0⟩]
    ⟨2, 2, false, 0, 0⟩ ⟨2, 2, false, 1, 0⟩ (by decide) (by decide) (by decide)).1

/-- C4 (code bug): `pthread_barrier_init` rejects a null handle slot with
InvalidArgument, but a zero count is not rejected — the call returns 0 and builds
a barrier object whose heights are both 0. -/
theorem c4_zero_count_not_rejected :
    (pthread_barrier_init ⟨true, 0, 0⟩ none none 1).result = EINVAL ∧
    (pthread_barrier_init ⟨true, 0, 0⟩ (some HandleVal.nullH) none 0).result = 0 ∧
    (pthread_barrier_init ⟨true, 0, 0⟩ (some HandleVal.nullH) none 0).allocated =
      some ⟨0, 0, false, 0, PTHREAD_PROCESS_PRIVATE⟩ := by decide

/-- C5 (code bug): under the guard lock the helper does fail InvalidArgument on a
Destroyed (null) handle and does nothing on a live handle, and on an AutoInit
handle it calls init with no attributes and propagates the result — but the count
it passes is indeterminate (line 68 omits the count argument of the 3-parameter
`pthread_barrier_init`), so the outcome depends on that indeterminate value rather
than on a statically-declared count. -/
theorem c5_count_indeterminate :
    ptw32_barrier_check_need_init ⟨true, 0, 0⟩ 5 HandleVal.autoInitH ≠
      ptw32_barrier_check_need_init ⟨true, 0, 0⟩ 7 HandleVal.autoInitH ∧
    ptw32_barrier_check_need_init ⟨true, 0, 0⟩ 5 HandleVal.nullH =
      (EINVAL, HandleVal.nullH, none) ∧
    ptw32_barrier_check_need_init ⟨true, 0, 0⟩ 5 (HandleVal.liveH ⟨2, 2, false, 0, 0⟩) =
      (0, HandleVal.liveH ⟨2, 2, false, 0, 0⟩, none) := by decide

/-- C6: a wait call whose handle argument is a null pointer or the Destroyed
(null) sentinel returns InvalidArgument immediately: the trace is empty (no lock
acquired, no blocking), the handle cell, the cancellation state and the lock are
untouched. -/
theorem c6_wait_invalid_handle (e : WaitEnv) :
    pthread_barrier_wait e none = WaitRet.out
      { result := EINVAL, slot := none, events := [], semWaitCancelState := none,
        finalCancelState := e.cancelState, mutexHeldAtExit := false } ∧
    pthread_barrier_wait e (some HandleVal.nullH) = WaitRet.out
      { result := EINVAL, slot := some HandleVal.nullH, events := [],
        semWaitCancelState := none, finalCancelState := e.cancelState,
        mutexHeldAtExit := false } :=
  ⟨rfl, rfl⟩

/-- C6 witness: a concrete environment. -/
theorem c6_wait_invalid_handle_witness :
    pthread_barrier_wait ⟨0, 0, 0, 0, 0, ⟨true, 0, 0⟩, 0⟩ (some HandleVal.nullH) =
      WaitRet.out
        { result := EINVAL, slot := some HandleVal.nullH, events := [],
          semWaitCancelState := none, finalCancelState := 0,
          mutexHeldAtExit := false } :=
  (c6_wait_invalid_handle ⟨0, 0, 0, 0, 0, ⟨true, 0, 0⟩, 0⟩).2

/-- C7 counterexample: a non-last arrival whose cancellation type is Asynchronous
enters the blocking `sem_wait` with cancellation delivery still Enabled — the claim
that asynchronous cancellation is disabled for every non-last arrival is false. -/
theorem c7_async_counterexample :
    pthread_barrier_wait
        ⟨0, 0, 0, PTHREAD_CANCEL_ASYNCHRONOUS, PTHREAD_CANCEL_ENABLE, ⟨true, 0, 0⟩, 0⟩
        (some (HandleVal.liveH ⟨2, 2, false, 0, 0⟩)) = WaitRet.out
      { result := 0
        slot := some (HandleVal.liveH ⟨1, 2, false, -1, 0⟩)
        events := [Ev.lockAcq, Ev.decrement 1, Ev.semWaitBegin PTHREAD_CANCEL_ENABLE,
                   Ev.semWaitEnd, Ev.unlock]
        semWaitCancelState := some PTHREAD_CANCEL_ENABLE
        finalCancelState := PTHREAD_CANCEL_ENABLE
        mutexHeldAtExit := false } ∧
    some PTHREAD_CANCEL_ENABLE ≠ some PTHREAD_CANCEL_DISABLED := by decide

/-- C7 (amended): for a non-last arrival whose cancellation type is Deferred,
cancellation delivery is disabled before the blocking semaphore wait and the prior
cancellation state is restored after the blocking call returns; when the type is
Asynchronous the cancellation mode is left unchanged, so cancellation can remain
deliverable during the wait. -/
theorem c7_deferred_cancel_protocol (e : WaitEnv) (b : BarrierObj)
    (hlock : e.lockRes = 0) (hnl : b.nCurrentBarrierHeight - 1 ≠ 0) :
    (e.cancelType = PTHREAD_CANCEL_DEFERRED →
      (waitLive e b).semWaitCancelState = some PTHREAD_CANCEL_DISABLED ∧
      (waitLive e b).finalCancelState = e.cancelState ∧
      (waitLive e b).events =
        [Ev.lockAcq, Ev.decrement (b.nCurrentBarrierHeight - 1),
         Ev.cancelSet PTHREAD_CANCEL_DISABLED,
         Ev.semWaitBegin PTHREAD_CANCEL_DISABLED, Ev.semWaitEnd,
         Ev.cancelRestore e.cancelState, Ev.unlock]) ∧
    (e.cancelType ≠ PTHREAD_CANCEL_DEFERRED →
      (waitLive e b).semWaitCancelState = some e.cancelState ∧
      (waitLive e b).finalCancelState = e.cancelState) := by
  constructor <;> intro h <;> simp [waitLive, hlock, hnl, h]

/-- C7 witness: a Deferred-type thread arriving second of three. -/
theorem c7_deferred_cancel_protocol_witness :
    (waitLive ⟨0, 0, 0, PTHREAD_CANCEL_DEFERRED, PTHREAD_CANCEL_ENABLE, ⟨true, 0, 0⟩, 0⟩
        ⟨3, 3, false, 0, 0⟩).semWaitCancelState = some PTHREAD_CANCEL_DISABLED ∧
    (waitLive ⟨0, 0, 0, PTHREAD_CANCEL_DEFERRED, PTHREAD_CANCEL_ENABLE, ⟨true, 0, 0⟩, 0⟩
        ⟨3, 3, false, 0, 0⟩).finalCancelState = PTHREAD_CANCEL_ENABLE := by
  have h := (c7_deferred_cancel_protocol
    ⟨0, 0, 0, PTHREAD_CANCEL_DEFERRED, PTHREAD_CANCEL_ENABLE, ⟨true, 0, 0⟩, 0⟩
    ⟨3, 3, false, 0, 0⟩ rfl (by decide)).1 rfl
  exact ⟨h.1, h.2.1⟩

/-- C8: requesting Shared mode on a valid attributes handle when the platform
cannot support cross-process sharing returns Unsupported, and the stored
processShared flag ends up equal to Private. -/
theorem c8_unsupported_shared_forced_private (a : BarrierAttr) :
    pthread_barrierattr_setpshared false (some (some a)) PTHREAD_PROCESS_SHARED =
      (ENOSYS, some (some ⟨PTHREAD_PROCESS_PRIVATE⟩)) := by
  cases a
  simp [pthread_barrierattr_setpshared]

/-- C8 witness: an attributes object that currently claims Shared. -/
theorem c8_unsupported_shared_forced_private_witness :
    pthread_barrierattr_setpshared false (some (some ⟨1⟩)) PTHREAD_PROCESS_SHARED =
      (ENOSYS, some (some ⟨PTHREAD_PROCESS_PRIVATE⟩)) :=
  c8_unsupported_shared_forced_private ⟨1⟩

/-- C9 (code bug): on allocation failure `pthread_barrierattr_init` does not return
OutOfMemory without accessing the absent object — line 320 writes the default mode
through the null object pointer (undefined behaviour); the success branch does
store a Private-mode object with result 0. -/
theorem c9_attr_alloc_failure_null_deref :
    pthread_barrierattr_init false = AttrInitOut.nullDeref ∧
    pthread_barrierattr_init true =
      AttrInitOut.ret 0 (some ⟨PTHREAD_PROCESS_PRIVATE⟩) := by decide

/-- C10: destroying a live barrier whose exclusive mutex cannot be acquired by
trylock (lock busy) returns the success result 0 while leaving the handle value,
the object's fields and all sub-resources unchanged — nothing is freed or
invalidated. -/
theorem c10_destroy_busy_noop (b : BarrierObj) (h : b.mtxLocked = true) :
    pthread_barrier_destroy (some (HandleVal.liveH b)) =
      { result := 0, slot := some (HandleVal.liveH b), semDestroyed := false,
        mutexDestroyed := false, freed := false } := by
  simp [pthread_barrier_destroy, h]

/-- C10 witness: a barrier whose mutex is currently held. -/
theorem c10_destroy_busy_noop_witness :
    pthread_barrier_destroy (some (HandleVal.liveH ⟨2, 2, true, 0, 0⟩)) =
      { result := 0, slot := some (HandleVal.liveH ⟨2, 2, true, 0, 0⟩),
        semDestroyed := false, mutexDestroyed := false, freed := false } :=
  c10_destroy_busy_noop ⟨2, 2, true, 0, 0⟩ rfl
